import Mathlib

/-!
Verification of the one-way reinforced-concrete slab design engine
(`OneWaySlab`, `BarProperties`, `MaterialProperties`, `Loads` in `src/app.py`).

The engine works on Python floats; we embed its arithmetic over `ℝ` with
exact rational literals.  Python raises `ZeroDivisionError` on division by
zero and `ValueError` on `math.sqrt` of a negative number; we model every
division whose divisor can be zero, and every `math.sqrt` call whose
argument can be negative, in an `Except PyErr` monad.  Divisions whose
divisor is provably nonzero at the call site (constant table entries, a
value already guarded by an earlier division on the same run) are kept
pure, matching the fact that Python cannot raise there.
-/

noncomputable section

namespace SlabApp

/-- Errors the Python engine can raise while running. -/
inductive PyErr where
  | zeroDivisionError : PyErr
  | mathDomainError : PyErr
  | valueError : String → PyErr
deriving DecidableEq

/-- Python division: raises `ZeroDivisionError` on a zero divisor. -/
def pydiv (x y : ℝ) : Except PyErr ℝ :=
  if y = 0 then .error .zeroDivisionError else .ok (x / y)

/-- Python `math.sqrt`: raises `ValueError` (math domain error) on negative input. -/
def pysqrt (x : ℝ) : Except PyErr ℝ :=
  if x < 0 then .error .mathDomainError else .ok (Real.sqrt x)

theorem pydiv_ok {x y : ℝ} (h : y ≠ 0) : pydiv x y = .ok (x / y) := by
  simp [pydiv, h]

theorem pydiv_err {x y : ℝ} (h : y = 0) : pydiv x y = .error .zeroDivisionError := by
  simp [pydiv, h]

theorem pysqrt_ok {x : ℝ} (h : 0 ≤ x) : pysqrt x = .ok (Real.sqrt x) := by
  simp [pysqrt, not_lt.mpr h]

theorem ok_bind {α β : Type} (a : α) (f : α → Except PyErr β) :
    (Except.ok a >>= f : Except PyErr β) = f a := rfl

theorem err_bind {α β : Type} (e : PyErr) (f : α → Except PyErr β) :
    (Except.error e >>= f : Except PyErr β) = .error e := rfl

theorem pure_ok {α : Type} (a : α) : (pure a : Except PyErr α) = .ok a := rfl

theorem ceil_eval {r : ℝ} {z : ℤ} (h1 : (z : ℝ) - 1 < r) (h2 : r ≤ z) : ⌈r⌉ = z :=
  Int.ceil_eq_iff.mpr ⟨h1, h2⟩

theorem floor_eval {r : ℝ} {z : ℤ} (h1 : (z : ℝ) ≤ r) (h2 : r < z + 1) : ⌊r⌋ = z :=
  Int.floor_eq_iff.mpr ⟨h1, h2⟩

/-- `MaterialProperties` dataclass (src/app.py lines 31-37). -/
structure MaterialProperties where
  fc_prime : ℝ
  fy : ℝ
  concrete_density : ℝ := 25
  cover : ℝ := 20

/-- `Loads` dataclass (src/app.py lines 39-43). -/
structure Loads where
  superimposed_dead : ℝ
  live_load : ℝ

/-- `BarProperties.BAR_DATA` (src/app.py lines 48-58): the nine-entry
standard bar catalog, name ↦ (diameter mm, area mm²). -/
def BAR_DATA (bar_size : String) : Option (ℝ × ℝ) :=
  if bar_size = "#10" then some (9.5, 71)
  else if bar_size = "#13" then some (12.7, 129)
  else if bar_size = "#16" then some (15.9, 199)
  else if bar_size = "#19" then some (19.1, 284)
  else if bar_size = "#22" then some (22.2, 387)
  else if bar_size = "#25" then some (25.4, 510)
  else if bar_size = "#29" then some (28.7, 645)
  else if bar_size = "#32" then some (32.3, 819)
  else if bar_size = "#36" then some (35.8, 1006)
  else none

/-- A constructed `BarProperties` instance (src/app.py lines 60-65). -/
structure BarProperties where
  bar_size : String
  diameter : ℝ
  area : ℝ

/-- `BarProperties.__init__`: raises `ValueError` when the requested name is
absent from `BAR_DATA` (src/app.py lines 60-65). -/
def BarProperties.make (bar_size : String) : Except PyErr BarProperties :=
  match BAR_DATA bar_size with
  | none => .error (.valueError bar_size)
  | some da => .ok { bar_size := bar_size, diameter := da.1, area := da.2 }

/-- The four support conditions (closed enumeration, the four keys of
`THICKNESS_COEFFICIENTS` in src/app.py lines 73-78). -/
inductive SupportCondition where
  | simply_supported : SupportCondition
  | one_end_continuous : SupportCondition
  | both_ends_continuous : SupportCondition
  | cantilever : SupportCondition
deriving DecidableEq

/-- `OneWaySlab.THICKNESS_COEFFICIENTS` (src/app.py lines 73-78). -/
def THICKNESS_COEFFICIENTS : SupportCondition → ℝ
  | .simply_supported => 20
  | .one_end_continuous => 24
  | .both_ends_continuous => 28
  | .cantilever => 10

/-- `OneWaySlab.MOMENT_COEFFICIENT_VALUES` (src/app.py lines 80-88), keyed by
the same strings as the Python dict.  The engine only ever looks up the seven
keys below; the 0 default is never reached. -/
def MOMENT_COEFFICIENT_VALUES (key : String) : ℝ :=
  if key = "exterior_negative" then 1/24
  else if key = "exterior_positive" then 1/14
  else if key = "interior_negative_first" then 1/10
  else if key = "interior_positive" then 1/16
  else if key = "interior_negative" then 1/11
  else if key = "simple_span" then 1/8
  else if key = "cantilever" then 1/2
  else 0

/-- The advisory note appended by `calculate_initial_thickness` (src/app.py
line 115), carrying the two interpolated values of the f-string. -/
structure Note where
  user_thickness : ℝ
  h_min : ℝ

/-- `OneWaySlab.calculate_initial_thickness` (src/app.py lines 107-122).
Returns the resolved thickness `self.h` together with the notes appended to
`self.notes` by this call.  Python's `if user_thickness:` is truthiness: it
takes the override branch only when `user_thickness` is neither `None` nor
zero. -/
def calculate_initial_thickness (clear_span : ℝ) (support_condition : SupportCondition)
    (user_thickness : Option ℝ) : ℝ × List Note :=
  let coefficient := THICKNESS_COEFFICIENTS support_condition
  let h_calc := clear_span / coefficient
  let h_rounded : ℝ := ((⌈h_calc / 10⌉ : ℤ) : ℝ) * 10
  match user_thickness with
  | some u =>
      if u = 0 then (h_rounded, [])
      else if u < h_rounded then (u, [{ user_thickness := u, h_min := h_rounded }])
      else (u, [])
  | none => (h_rounded, [])

/-- `OneWaySlab.calculate_factored_load` (src/app.py lines 124-129):
returns `(wu, total_dead, self_weight)`. -/
def calculate_factored_load (h : ℝ) (material : MaterialProperties) (loads : Loads) :
    ℝ × ℝ × ℝ :=
  let self_weight := h / 1000 * material.concrete_density
  let total_dead := loads.superimposed_dead + self_weight
  let wu := 1.2 * total_dead + 1.6 * loads.live_load
  (wu, total_dead, self_weight)

/-- `OneWaySlab.calculate_moments` (src/app.py lines 131-156).  The Python
dict (insertion-ordered) is modeled as an association list. -/
def calculate_moments (wu clear_span : ℝ) (support_condition : SupportCondition) :
    List (String × ℝ) :=
  let L_m := clear_span / 1000
  let base_moment := wu * L_m ^ 2
  match support_condition with
  | .simply_supported =>
      [("Positive Moment (Midspan)", MOMENT_COEFFICIENT_VALUES "simple_span" * base_moment)]
  | .one_end_continuous =>
      [("Negative Moment (Exterior Support)",
          MOMENT_COEFFICIENT_VALUES "exterior_negative" * base_moment),
       ("Positive Moment (Midspan)",
          MOMENT_COEFFICIENT_VALUES "exterior_positive" * base_moment),
       ("Negative Moment (First Interior Support)",
          MOMENT_COEFFICIENT_VALUES "interior_negative_first" * base_moment)]
  | .both_ends_continuous =>
      [("Negative Moment (Supports)",
          MOMENT_COEFFICIENT_VALUES "interior_negative" * base_moment),
       ("Positive Moment (Midspan)",
          MOMENT_COEFFICIENT_VALUES "interior_positive" * base_moment)]
  | .cantilever =>
      [("Negative Moment (Support)",
          MOMENT_COEFFICIENT_VALUES "cantilever" * base_moment)]

/-- `OneWaySlab.calculate_effective_depth` (src/app.py lines 158-161):
`d = h - cover - diameter/2`, with no positivity check. -/
def calculate_effective_depth (h : ℝ) (material : MaterialProperties)
    (main_bar : BarProperties) : ℝ :=
  h - material.cover - main_bar.diameter / 2

/-- The dict returned by `calculate_required_steel` (src/app.py lines 198-212). -/
structure SteelResult where
  location : String
  Mu : ℝ
  Rn : ℝ
  rho : ℝ
  As_req : ℝ
  As_min : ℝ
  As_final : ℝ
  As_prov : ℝ
  spacing_req : ℝ
  spacing_max : ℝ
  spacing_final : ℝ
  bar_size : String
  bar_area : ℝ

/-- `OneWaySlab.calculate_required_steel` (src/app.py lines 163-212).
`h` is `self.h` and `d` is `self.d` (already computed by `design`).
Returns `.ok none` when `Mu ≤ 0` (Python `return None`).  The divisions by
`phi*b*d²`, by `0.85*fc'`, by `fy` and by `As_final` can raise
`ZeroDivisionError` and are modeled with `pydiv`; `math.sqrt term` is only
reached when `term ≥ 0`, and `1/m` only when `fy ≠ 0 ∧ fc' ≠ 0` (hence
`m ≠ 0`), so both are pure; `spacing_final ≥ 75 > 0` makes the final
division pure as well. -/
def calculate_required_steel (material : MaterialProperties) (main_bar : BarProperties)
    (h d : ℝ) (Mu : ℝ) (location : String) : Except PyErr (Option SteelResult) :=
  if Mu ≤ 0 then .ok none else do
    let Mu_nmm := Mu * 1000000
    let phi : ℝ := 0.9
    let b : ℝ := 1000
    let Rn ← pydiv Mu_nmm (phi * b * d ^ 2)
    let m ← pydiv material.fy (0.85 * material.fc_prime)
    let t ← pydiv (2 * m * Rn) material.fy
    let term := 1 - t
    let rho := if term < 0 then 0.02 else 1/m * (1 - Real.sqrt term)
    let As_req := rho * b * d
    let Ag := b * h
    let As_min := if material.fy < 420 then 0.0020 * Ag
      else max (0.0018 * 420 / material.fy * Ag) (0.0014 * Ag)
    let As_final := max As_req As_min
    let spacing_req ← pydiv (1000 * main_bar.area) As_final
    let spacing_max_by_code := min (3 * h) 450
    let spacing_max := min spacing_req spacing_max_by_code
    let spacing_final : ℝ := max 75 (((⌊spacing_max / 25⌋ : ℤ) : ℝ) * 25)
    let As_provided := 1000 * main_bar.area / spacing_final
    pure (some { location := location, Mu := Mu, Rn := Rn, rho := rho, As_req := As_req,
                 As_min := As_min, As_final := As_final, As_prov := As_provided,
                 spacing_req := spacing_req, spacing_max := spacing_max,
                 spacing_final := spacing_final, bar_size := main_bar.bar_size,
                 bar_area := main_bar.area })

/-- The dict returned by `calculate_shrinkage_steel` (src/app.py lines 229-237). -/
structure ShrinkageResult where
  As_req : ℝ
  As_prov : ℝ
  spacing_req : ℝ
  spacing_max : ℝ
  spacing_final : ℝ
  bar_size : String
  bar_area : ℝ

/-- `OneWaySlab.calculate_shrinkage_steel` (src/app.py lines 214-237).
Both divisions (by `As_sh_req` and by `spacing_final`) can raise
`ZeroDivisionError`; in particular `spacing_final` is 0 whenever the
candidate spacing falls below 25 mm (there is no 75 mm floor here). -/
def calculate_shrinkage_steel (material : MaterialProperties)
    (shrinkage_bar : BarProperties) (h : ℝ) : Except PyErr ShrinkageResult := do
  let Ag := 1000 * h
  let As_sh_req := if material.fy < 420 then 0.0020 * Ag
    else 0.0018 * 420 / material.fy * Ag
  let spacing_req ← pydiv (1000 * shrinkage_bar.area) As_sh_req
  let spacing_max_by_code := min (5 * h) 450
  let spacing_max := min spacing_req spacing_max_by_code
  let spacing_final : ℝ := ((⌊spacing_max / 25⌋ : ℤ) : ℝ) * 25
  let As_provided ← pydiv (1000 * shrinkage_bar.area) spacing_final
  pure { As_req := As_sh_req, As_prov := As_provided, spacing_req := spacing_req,
         spacing_max := spacing_max, spacing_final := spacing_final,
         bar_size := shrinkage_bar.bar_size, bar_area := shrinkage_bar.area }

/-- The dict returned by `check_shear` (src/app.py lines 269-275).  The
Python `status` string is modeled by the proposition `status`, true exactly
when the string is `"✓ PASS - No shear reinforcement required"`. -/
structure ShearResult where
  Vu : ℝ
  Vc : ℝ
  phiVc : ℝ
  utilization : ℝ
  status : Prop

/-- `OneWaySlab.check_shear` (src/app.py lines 239-275).  The `else` arm of
the Python chain (`wu * (L_n/2)`) is unreachable because `SupportCondition`
is a closed enumeration.  `math.sqrt fc'` can raise on negative `fc'`. -/
def check_shear (material : MaterialProperties) (clear_span wu d : ℝ)
    (support_condition : SupportCondition) : Except PyErr ShearResult := do
  let L_n := clear_span / 1000
  let d_m := d / 1000
  let Vu0 : ℝ :=
    match support_condition with
    | .simply_supported => wu * (L_n / 2 - d_m)
    | .one_end_continuous => max (wu * (L_n / 2 - d_m)) (wu * (0.575 * L_n - d_m))
    | .both_ends_continuous => wu * (L_n / 2 - d_m)
    | .cantilever => wu * L_n
  let Vu := max Vu0 0
  let lamda : ℝ := 1.0
  let sqrt_fc ← pysqrt material.fc_prime
  let Vc := 0.17 * lamda * sqrt_fc * 1000 * d / 1000
  let phiVc := 0.75 * Vc
  let utilization := if phiVc > 0 then Vu / phiVc * 100 else 0
  pure { Vu := Vu, Vc := Vc, phiVc := phiVc, utilization := utilization,
         status := Vu ≤ phiVc }

/-- The caller-supplied fields of a `OneWaySlab` instance (src/app.py
lines 90-105, set by the presentation layer before `design()` runs). -/
structure SlabInput where
  clear_span : ℝ
  material : MaterialProperties
  loads : Loads
  support_condition : SupportCondition
  main_bar : BarProperties
  shrinkage_bar : BarProperties
  user_h : Option ℝ

/-- The dict returned by `design` (src/app.py lines 293-304). -/
structure DesignResult where
  thickness : ℝ
  effective_depth : ℝ
  factored_load : ℝ
  self_weight : ℝ
  total_dead : ℝ
  moments : List (String × ℝ)
  reinforcement : List (String × SteelResult)
  shrinkage : ShrinkageResult
  shear : ShearResult
  notes : List Note

/-- The reinforcement loop of `design` (src/app.py lines 284-288): one
flexural sizing per named moment, in dict order, keeping only the non-`None`
results. -/
def collect_reinforcement (material : MaterialProperties) (main_bar : BarProperties)
    (h d : ℝ) : List (String × ℝ) → Except PyErr (List (String × SteelResult))
  | [] => .ok []
  | (loc, Mu) :: rest => do
    let result ← calculate_required_steel material main_bar h d Mu loc
    let tail ← collect_reinforcement material main_bar h d rest
    match result with
    | some r => pure ((loc, r) :: tail)
    | none => pure tail

/-- `OneWaySlab.design` (src/app.py lines 277-304).  `notes0` is the content
of `self.notes` when the call starts: `[]` for a freshly constructed
`OneWaySlab` (the only state field that `design` does not overwrite —
`calculate_initial_thickness` appends to it, so it accumulates across calls
on the same object). -/
def design (inp : SlabInput) (notes0 : List Note) : Except PyErr DesignResult := do
  let tn := calculate_initial_thickness inp.clear_span inp.support_condition inp.user_h
  let h := tn.1
  let notes := notes0 ++ tn.2
  let fl := calculate_factored_load h inp.material inp.loads
  let wu := fl.1
  let total_dead := fl.2.1
  let self_weight := fl.2.2
  let moments := calculate_moments wu inp.clear_span inp.support_condition
  let d := calculate_effective_depth h inp.material inp.main_bar
  let reinforcement ← collect_reinforcement inp.material inp.main_bar h d moments
  let shrinkage ← calculate_shrinkage_steel inp.material inp.shrinkage_bar h
  let shear ← check_shear inp.material inp.clear_span wu d inp.support_condition
  pure { thickness := h, effective_depth := d, factored_load := wu,
         self_weight := self_weight, total_dead := total_dead, moments := moments,
         reinforcement := reinforcement, shrinkage := shrinkage, shear := shear,
         notes := notes }

/-! ### Helper evaluations -/

theorem THICKNESS_COEFFICIENTS_pos (sc : SupportCondition) :
    0 < THICKNESS_COEFFICIENTS sc := by
  cases sc <;> norm_num [THICKNESS_COEFFICIENTS]

/-! ### C4: moment solver key sets and coefficients -/

/-- C4: for each of the four support conditions the moments map has exactly
the fixed key set of that condition (1, 3, 2, 1 keys, pairwise distinct),
and each named moment equals its exact ACI coefficient times
`M0 = wu * (clear span in meters)^2`. -/
theorem C4_moments_exact (wu clear_span : ℝ) :
    (calculate_moments wu clear_span .simply_supported =
        [("Positive Moment (Midspan)", 1/8 * (wu * (clear_span / 1000) ^ 2))] ∧
      calculate_moments wu clear_span .one_end_continuous =
        [("Negative Moment (Exterior Support)", 1/24 * (wu * (clear_span / 1000) ^ 2)),
         ("Positive Moment (Midspan)", 1/14 * (wu * (clear_span / 1000) ^ 2)),
         ("Negative Moment (First Interior Support)", 1/10 * (wu * (clear_span / 1000) ^ 2))] ∧
      calculate_moments wu clear_span .both_ends_continuous =
        [("Negative Moment (Supports)", 1/11 * (wu * (clear_span / 1000) ^ 2)),
         ("Positive Moment (Midspan)", 1/16 * (wu * (clear_span / 1000) ^ 2))] ∧
      calculate_moments wu clear_span .cantilever =
        [("Negative Moment (Support)", 1/2 * (wu * (clear_span / 1000) ^ 2))]) ∧
    (∀ sc : SupportCondition,
      ((calculate_moments wu clear_span sc).map Prod.fst).Nodup) ∧
    (calculate_moments wu clear_span .simply_supported).length = 1 ∧
    (calculate_moments wu clear_span .one_end_continuous).length = 3 ∧
    (calculate_moments wu clear_span .both_ends_continuous).length = 2 ∧
    (calculate_moments wu clear_span .cantilever).length = 1 := by
  refine ⟨⟨?_, ?_, ?_, ?_⟩, ?_, rfl, rfl, rfl, rfl⟩ <;>
    first
    | (intro sc; cases sc <;> simp [calculate_moments])
    | simp [calculate_moments, MOMENT_COEFFICIENT_VALUES]

/-! ### C5: thickness selector -/

/-- C5 (amended): the thickness selector computes `span / divisor` with the
fixed divisor (20/24/28/10), rounded up to the next multiple of 10; with no
override the resolved thickness is this positive multiple of 10 with no
note; with a NONZERO override the resolved thickness is the override, with
exactly one advisory note exactly when the override is below the computed
minimum.  (A supplied override of 0 is falsy in Python and is treated as no
override — see `C5_counterexample`.) -/
theorem C5_thickness (clear_span : ℝ) (sc : SupportCondition) (u : ℝ)
    (hspan : 0 < clear_span) (hu : u ≠ 0) :
    (THICKNESS_COEFFICIENTS .simply_supported = 20 ∧
     THICKNESS_COEFFICIENTS .one_end_continuous = 24 ∧
     THICKNESS_COEFFICIENTS .both_ends_continuous = 28 ∧
     THICKNESS_COEFFICIENTS .cantilever = 10) ∧
    (calculate_initial_thickness clear_span sc none =
        (((⌈clear_span / THICKNESS_COEFFICIENTS sc / 10⌉ : ℤ) : ℝ) * 10, []) ∧
      (∃ k : ℤ, (calculate_initial_thickness clear_span sc none).1 = 10 * (k : ℝ)) ∧
      0 < (calculate_initial_thickness clear_span sc none).1) ∧
    ((calculate_initial_thickness clear_span sc (some u)).1 = u ∧
      (u < ((⌈clear_span / THICKNESS_COEFFICIENTS sc / 10⌉ : ℤ) : ℝ) * 10 →
        (calculate_initial_thickness clear_span sc (some u)).2 =
          [{ user_thickness := u,
             h_min := ((⌈clear_span / THICKNESS_COEFFICIENTS sc / 10⌉ : ℤ) : ℝ) * 10 }]) ∧
      (((⌈clear_span / THICKNESS_COEFFICIENTS sc / 10⌉ : ℤ) : ℝ) * 10 ≤ u →
        (calculate_initial_thickness clear_span sc (some u)).2 = [])) := by
  have hcoeff : 0 < THICKNESS_COEFFICIENTS sc := THICKNESS_COEFFICIENTS_pos sc
  have hpos : 0 < clear_span / THICKNESS_COEFFICIENTS sc / 10 := by positivity
  have hceil : (1 : ℤ) ≤ ⌈clear_span / THICKNESS_COEFFICIENTS sc / 10⌉ :=
    Int.ceil_pos.mpr hpos
  refine ⟨⟨rfl, rfl, rfl, rfl⟩, ⟨rfl, ⟨⌈clear_span / THICKNESS_COEFFICIENTS sc / 10⌉, by
      simp [calculate_initial_thickness, mul_comm]⟩, ?_⟩, ?_, ?_, ?_⟩
  · show (0 : ℝ) < ((⌈clear_span / THICKNESS_COEFFICIENTS sc / 10⌉ : ℤ) : ℝ) * 10
    have : (1 : ℝ) ≤ ((⌈clear_span / THICKNESS_COEFFICIENTS sc / 10⌉ : ℤ) : ℝ) := by
      exact_mod_cast hceil
    nlinarith
  · simp only [calculate_initial_thickness, if_neg hu]
    rcases lt_or_le u (((⌈clear_span / THICKNESS_COEFFICIENTS sc / 10⌉ : ℤ) : ℝ) * 10) with hlt | hle
    · simp [if_pos hlt]
    · simp [if_neg (not_lt.mpr hle)]
  · intro hlt
    simp only [calculate_initial_thickness, if_neg hu, if_pos hlt]
  · intro hle
    simp only [calculate_initial_thickness, if_neg hu, if_neg (not_lt.mpr hle)]

/-- C5 witness: at span 3500 mm, simply supported, the computed minimum is
180 mm; with no override the result is (180, no notes); with override 100
(below the minimum) the resolved thickness is 100 and exactly one note is
appended. -/
theorem C5_thickness_witness :
    (0 : ℝ) < 3500 ∧ (100 : ℝ) ≠ 0 ∧
    calculate_initial_thickness 3500 .simply_supported none = (180, []) ∧
    (calculate_initial_thickness 3500 .simply_supported (some 100)).1 = 100 ∧
    (calculate_initial_thickness 3500 .simply_supported (some 100)).2 =
      [{ user_thickness := 100, h_min := 180 }] := by
  have hc : ⌈(3500 : ℝ) / THICKNESS_COEFFICIENTS .simply_supported / 10⌉ = (18 : ℤ) := by
    refine ceil_eval ?_ ?_ <;> norm_num [THICKNESS_COEFFICIENTS]
  obtain ⟨h1, h2, h3⟩ := C5_thickness 3500 .simply_supported 100 (by norm_num) (by norm_num)
  refine ⟨by norm_num, by norm_num, ?_, h3.1, ?_⟩
  · rw [h2.1, hc]; norm_num
  · rw [h3.2.1 (by rw [hc]; norm_num), hc]; norm_num

/-- C5 counterexample: a supplied override of 0 is ignored (Python
truthiness), so the resolved thickness is the computed minimum 180, not the
override value 0 — refuting "the resolved thickness always equals the
override value when one is supplied". -/
theorem C5_counterexample :
    (calculate_initial_thickness 3500 .simply_supported (some 0)).1 = 180 ∧
    (180 : ℝ) ≠ 0 := by
  have hc : ⌈(3500 : ℝ) / THICKNESS_COEFFICIENTS .simply_supported / 10⌉ = (18 : ℤ) := by
    refine ceil_eval ?_ ?_ <;> norm_num [THICKNESS_COEFFICIENTS]
  constructor
  · simp only [calculate_initial_thickness, if_pos rfl, hc]
    norm_num
  · norm_num

/-! ### Generic stage-success lemmas -/

/-- `calculate_required_steel` returns a reinforcement record whenever the
moment is positive, the depth and material strengths are nonzero, and the
thickness is positive (making `As_min`, hence `As_final`, positive). -/
theorem steel_ok (material : MaterialProperties) (bar : BarProperties)
    (h d Mu : ℝ) (loc : String) (hMu : 0 < Mu) (hd : d ≠ 0)
    (hfc : material.fc_prime ≠ 0) (hfy : material.fy ≠ 0) (hh : 0 < h) :
    ∃ r : SteelResult, calculate_required_steel material bar h d Mu loc = .ok (some r) ∧
      r.location = loc ∧ r.Mu = Mu := by
  simp only [calculate_required_steel]
  rw [if_neg (not_le.mpr hMu)]
  rw [pydiv_ok (mul_ne_zero (by norm_num : (0.9 : ℝ) * 1000 ≠ 0) (pow_ne_zero 2 hd))]
  simp only [ok_bind]
  rw [pydiv_ok (mul_ne_zero (by norm_num : (0.85 : ℝ) ≠ 0) hfc)]
  simp only [ok_bind]
  rw [pydiv_ok hfy]
  simp only [ok_bind]
  have hAsmin : 0 < (if material.fy < 420 then 0.0020 * (1000 * h)
      else max (0.0018 * 420 / material.fy * (1000 * h)) (0.0014 * (1000 * h))) := by
    split
    · nlinarith
    · exact lt_of_lt_of_le (by nlinarith) (le_max_right _ _)
  rw [pydiv_ok (ne_of_gt (lt_of_lt_of_le hAsmin (le_max_right _ _)))]
  simp only [ok_bind, pure_ok]
  exact ⟨_, rfl, rfl, rfl⟩

/-- `calculate_shrinkage_steel` succeeds whenever its two divisors
(`As_sh_req` and `spacing_final`) are nonzero. -/
theorem shrinkage_ok (material : MaterialProperties) (bar : BarProperties) (h : ℝ)
    (h1 : (if material.fy < 420 then 0.0020 * (1000 * h)
        else 0.0018 * 420 / material.fy * (1000 * h)) ≠ 0)
    (h2 : ((⌊min (1000 * bar.area /
          (if material.fy < 420 then 0.0020 * (1000 * h)
           else 0.0018 * 420 / material.fy * (1000 * h)))
          (min (5 * h) 450) / 25⌋ : ℤ) : ℝ) * 25 ≠ 0) :
    ∃ s : ShrinkageResult, calculate_shrinkage_steel material bar h = .ok s := by
  simp only [calculate_shrinkage_steel]
  rw [pydiv_ok h1]
  simp only [ok_bind]
  rw [pydiv_ok h2]
  simp only [ok_bind, pure_ok]
  exact ⟨_, rfl⟩

/-- `check_shear` succeeds whenever `f'c ≥ 0` (`math.sqrt` does not raise). -/
theorem check_shear_ok (material : MaterialProperties) (clear_span wu d : ℝ)
    (sc : SupportCondition) (hfc : 0 ≤ material.fc_prime) :
    ∃ s : ShearResult, check_shear material clear_span wu d sc = .ok s := by
  unfold check_shear
  rw [pysqrt_ok hfc]
  simp only [ok_bind, pure_ok]
  exact ⟨_, rfl⟩

/-! ### Concrete catalog entries and inputs -/

def barNo10 : BarProperties := { bar_size := "#10", diameter := 9.5, area := 71 }

def barNo13 : BarProperties := { bar_size := "#13", diameter := 12.7, area := 129 }

def barNo25 : BarProperties := { bar_size := "#25", diameter := 25.4, area := 510 }

/-! ### C7: shear checker -/

/-- C7: whenever `check_shear` returns a record, `Vu` is the per-condition
demand formula clamped to ≥ 0, utilization is 0 when `φVc = 0` and equals
`Vu/φVc·100` when `φVc > 0` (the division is never performed on a zero
`φVc`), and the status reports pass iff `Vu ≤ φVc`. -/
theorem C7_shear (material : MaterialProperties) (clear_span wu d : ℝ)
    (sc : SupportCondition) (r : ShearResult)
    (hr : check_shear material clear_span wu d sc = .ok r) :
    r.Vu = max (match sc with
        | .simply_supported => wu * (clear_span / 1000 / 2 - d / 1000)
        | .one_end_continuous => max (wu * (clear_span / 1000 / 2 - d / 1000))
            (wu * (0.575 * (clear_span / 1000) - d / 1000))
        | .both_ends_continuous => wu * (clear_span / 1000 / 2 - d / 1000)
        | .cantilever => wu * (clear_span / 1000)) 0 ∧
    0 ≤ r.Vu ∧
    (r.phiVc = 0 → r.utilization = 0) ∧
    (0 < r.phiVc → r.utilization = r.Vu / r.phiVc * 100) ∧
    (r.status ↔ r.Vu ≤ r.phiVc) := by
  by_cases hfc : material.fc_prime < 0
  · exfalso
    simp [check_shear, pysqrt, if_pos hfc, err_bind] at hr
  · simp only [check_shear] at hr
    rw [pysqrt_ok (not_lt.mp hfc)] at hr
    simp only [ok_bind, pure_ok, Except.ok.injEq] at hr
    subst hr
    refine ⟨?_, le_max_right _ _, ?_, ?_, Iff.rfl⟩
    · cases sc <;> rfl
    · intro h0
      dsimp only at h0 ⊢
      rw [if_neg (by rw [h0]; exact lt_irrefl 0)]
    · intro hpos
      dsimp only at hpos ⊢
      rw [if_pos hpos]

def matW : MaterialProperties := { fc_prime := 25, fy := 420, concrete_density := 25, cover := 20 }

def shearW : ShearResult :=
  { Vu := 19.1562, Vc := 130.6025, phiVc := 97.951875,
    utilization := 19.1562 / 97.951875 * 100, status := (19.1562 : ℝ) ≤ 97.951875 }

theorem check_shear_matW :
    check_shear matW 3500 12 153.65 .simply_supported = .ok shearW := by
  simp only [check_shear]
  rw [pysqrt_ok (by norm_num [matW] : (0:ℝ) ≤ matW.fc_prime)]
  simp only [ok_bind, pure_ok]
  have h5 : Real.sqrt matW.fc_prime = 5 := by
    rw [show matW.fc_prime = ((5:ℝ)) ^ 2 from by norm_num [matW], Real.sqrt_sq (by norm_num)]
  rw [h5]
  have e1 : max ((12:ℝ) * (3500 / 1000 / 2 - 153.65 / 1000)) 0 = 19.1562 := by
    rw [max_eq_left (by norm_num)]; norm_num
  have e2 : (0.75:ℝ) * (0.17 * 1.0 * 5 * 1000 * 153.65 / 1000) = 97.951875 := by norm_num
  have e3 : (0.17:ℝ) * 1.0 * 5 * 1000 * 153.65 / 1000 = 130.6025 := by norm_num
  rw [e1, e2, e3]
  rw [if_pos (by norm_num : (0:ℝ) < 97.951875)]
  rfl

/-- C7 witness: on concrete inputs (f'c = 25, span 3500 mm, wu = 12,
d = 153.65 mm, simply supported) the shear record is explicit and the
theorem's conclusions hold at it. -/
theorem C7_shear_witness :
    check_shear matW 3500 12 153.65 .simply_supported = .ok shearW ∧
    0 ≤ shearW.Vu ∧
    (0 < shearW.phiVc → shearW.utilization = shearW.Vu / shearW.phiVc * 100) ∧
    (shearW.status ↔ shearW.Vu ≤ shearW.phiVc) := by
  have h := C7_shear matW 3500 12 153.65 .simply_supported shearW check_shear_matW
  exact ⟨check_shear_matW, h.2.1, h.2.2.2.1, h.2.2.2.2⟩

/-! ### C6: load combiner and Scenario A -/

def matA : MaterialProperties := { fc_prime := 28, fy := 420, concrete_density := 25, cover := 20 }

def loadsA : Loads := { superimposed_dead := 1.5, live_load := 3 }

def inputA : SlabInput :=
  { clear_span := 3500, material := matA, loads := loadsA,
    support_condition := .simply_supported, main_bar := barNo13,
    shrinkage_bar := barNo13, user_h := none }

theorem thick_A : calculate_initial_thickness 3500 .simply_supported none = (180, []) := by
  have hc : ⌈(3500 : ℝ) / 20 / 10⌉ = (18 : ℤ) := ceil_eval (by norm_num) (by norm_num)
  simp only [calculate_initial_thickness, THICKNESS_COEFFICIENTS, hc]
  norm_num

theorem load_A : calculate_factored_load 180 matA loadsA = (12, 6, 4.5) := by
  simp only [calculate_factored_load, matA, loadsA]
  norm_num

theorem mom_A : calculate_moments 12 3500 .simply_supported =
    [("Positive Moment (Midspan)", 18.375)] := by
  simp [calculate_moments, MOMENT_COEFFICIENT_VALUES]
  norm_num

theorem depth_A : calculate_effective_depth 180 matA barNo13 = 153.65 := by
  simp only [calculate_effective_depth, matA, barNo13]
  norm_num

theorem design_A : ∃ r : DesignResult, design inputA [] = .ok r ∧
    r.thickness = 180 ∧ r.self_weight = 4.5 ∧ r.factored_load = 12 ∧
    r.moments = [("Positive Moment (Midspan)", 18.375)] := by
  obtain ⟨rec, hrec, -, -⟩ := steel_ok matA barNo13 180 153.65 18.375
    "Positive Moment (Midspan)" (by norm_num) (by norm_num)
    (by norm_num [matA]) (by norm_num [matA]) (by norm_num)
  have hcol : collect_reinforcement matA barNo13 180 153.65
      [("Positive Moment (Midspan)", 18.375)] = .ok [("Positive Moment (Midspan)", rec)] := by
    simp only [collect_reinforcement, hrec, ok_bind, pure_ok]
  obtain ⟨shr, hshr⟩ := shrinkage_ok matA barNo13 180
    (by norm_num [matA])
    (by
      have hfl : ⌊min ((1000:ℝ) * barNo13.area /
          (if matA.fy < 420 then 0.0020 * (1000 * 180)
           else 0.0018 * 420 / matA.fy * (1000 * 180))) (min (5 * 180) 450) / 25⌋ = (15:ℤ) := by
        rw [show min ((1000:ℝ) * barNo13.area /
            (if matA.fy < 420 then 0.0020 * (1000 * 180)
             else 0.0018 * 420 / matA.fy * (1000 * 180))) (min (5 * 180) 450) = 10750/27 from by
          rw [if_neg (by norm_num [matA])]
          rw [min_eq_left (by norm_num [barNo13, matA])]
          norm_num [barNo13, matA]]
        exact floor_eval (by norm_num) (by norm_num)
      rw [hfl]
      norm_num)
  obtain ⟨sh, hsh⟩ := check_shear_ok matA 3500 12 153.65 .simply_supported
    (by norm_num [matA])
  have hdesign : design inputA [] =
      .ok { thickness := 180, effective_depth := 153.65, factored_load := 12,
            self_weight := 4.5, total_dead := 6,
            moments := [("Positive Moment (Midspan)", 18.375)],
            reinforcement := [("Positive Moment (Midspan)", rec)],
            shrinkage := shr, shear := sh, notes := [] } := by
    simp only [design, inputA]
    rw [thick_A]
    dsimp only
    rw [load_A]
    dsimp only
    rw [mom_A, depth_A, hcol]
    simp only [ok_bind]
    rw [hshr]
    simp only [ok_bind]
    rw [hsh]
    simp only [ok_bind, pure_ok, List.nil_append]
  exact ⟨_, hdesign, rfl, rfl, rfl, rfl⟩

/-- C6: the load combiner computes self-weight `= h/1000 × density`, total
dead `= superimposed + self-weight`, and `wu = 1.2·dead + 1.6·live`; and on
Scenario A (span 3500 mm simply supported, f'c 28, fy 420, density 25,
cover 20, dead 1.5, live 3.0, #13 bars, no override) the design returns
thickness 180 mm, self-weight 4.5, wu = 12.0 and the single moment
"Positive Moment (Midspan)" = 18.375 kN·m. -/
theorem C6_loads_scenarioA :
    (∀ (h : ℝ) (material : MaterialProperties) (loads : Loads),
      calculate_factored_load h material loads =
        (1.2 * (loads.superimposed_dead + h / 1000 * material.concrete_density)
            + 1.6 * loads.live_load,
         loads.superimposed_dead + h / 1000 * material.concrete_density,
         h / 1000 * material.concrete_density)) ∧
    (design inputA []).toOption.map
        (fun r => (r.thickness, r.self_weight, r.factored_load, r.moments)) =
      some (180, 4.5, 12, [("Positive Moment (Midspan)", 18.375)]) := by
  constructor
  · intro h material loads
    rfl
  · obtain ⟨r, hr, h1, h2, h3, h4⟩ := design_A
    rw [hr]
    simp [Except.toOption, h1, h2, h3, h4]

/-! ### C8: shrinkage reinforcement sizing -/

/-- C8: whenever the shrinkage sizer returns a record, `As_req` follows the
fy-branch formula on `Ag = 1000·h`, `spacing_req = 1000·bar_area/As_req`,
and the final spacing is `⌊min(spacing_req, 5h, 450)/25⌋·25` — a multiple of
25 with no 75 mm floor — hence ≤ `min(spacing_req, 5h, 450)`. -/
theorem C8_shrinkage (material : MaterialProperties) (bar : BarProperties) (h : ℝ)
    (s : ShrinkageResult) (hs : calculate_shrinkage_steel material bar h = .ok s) :
    s.As_req = (if material.fy < 420 then 0.0020 * (1000 * h)
        else 0.0018 * 420 / material.fy * (1000 * h)) ∧
    s.spacing_req = 1000 * bar.area / s.As_req ∧
    s.spacing_final =
      ((⌊min (1000 * bar.area / s.As_req) (min (5 * h) 450) / 25⌋ : ℤ) : ℝ) * 25 ∧
    (∃ k : ℤ, s.spacing_final = 25 * (k : ℝ)) ∧
    s.spacing_final ≤ min s.spacing_req (min (5 * h) 450) := by
  simp only [calculate_shrinkage_steel] at hs
  by_cases h1 : (if material.fy < 420 then 0.0020 * (1000 * h)
      else 0.0018 * 420 / material.fy * (1000 * h)) = 0
  · rw [pydiv_err h1] at hs
    simp only [err_bind] at hs
    exact absurd hs (by simp)
  · rw [pydiv_ok h1] at hs
    simp only [ok_bind] at hs
    by_cases h2 : ((⌊min (1000 * bar.area /
          (if material.fy < 420 then 0.0020 * (1000 * h)
           else 0.0018 * 420 / material.fy * (1000 * h)))
          (min (5 * h) 450) / 25⌋ : ℤ) : ℝ) * 25 = 0
    · rw [pydiv_err h2] at hs
      simp only [err_bind] at hs
      exact absurd hs (by simp)
    · rw [pydiv_ok h2] at hs
      simp only [ok_bind, pure_ok, Except.ok.injEq] at hs
      subst hs
      refine ⟨rfl, rfl, rfl, ⟨⌊min (1000 * bar.area /
          (if material.fy < 420 then 0.0020 * (1000 * h)
           else 0.0018 * 420 / material.fy * (1000 * h)))
          (min (5 * h) 450) / 25⌋, mul_comm _ _⟩, ?_⟩
      have hfloor : (((⌊min (1000 * bar.area /
          (if material.fy < 420 then 0.0020 * (1000 * h)
           else 0.0018 * 420 / material.fy * (1000 * h)))
          (min (5 * h) 450) / 25⌋ : ℤ) : ℝ)) * 25 ≤
          min (1000 * bar.area /
            (if material.fy < 420 then 0.0020 * (1000 * h)
             else 0.0018 * 420 / material.fy * (1000 * h)))
            (min (5 * h) 450) := by
        have := Int.floor_le (min (1000 * bar.area /
            (if material.fy < 420 then 0.0020 * (1000 * h)
             else 0.0018 * 420 / material.fy * (1000 * h)))
            (min (5 * h) 450) / 25)
        calc (((⌊_⌋ : ℤ) : ℝ)) * 25 ≤ _ / 25 * 25 :=
              mul_le_mul_of_nonneg_right this (by norm_num)
          _ = _ := div_mul_cancel₀ _ (by norm_num)
      exact hfloor

def shrW : ShrinkageResult :=
  { As_req := 324, As_prov := 344, spacing_req := 10750 / 27,
    spacing_max := 10750 / 27, spacing_final := 375,
    bar_size := "#13", bar_area := 129 }

theorem shr_matA_eval : calculate_shrinkage_steel matA barNo13 180 = .ok shrW := by
  simp only [calculate_shrinkage_steel, matA, barNo13]
  norm_num [pydiv, ok_bind, pure_ok, max_def, min_def, shrW,
    Except.ok.injEq, ShrinkageResult.mk.injEq]

/-- C8 witness: at fy = 420, h = 180 mm, #13 shrinkage bar the record is
explicit — As_req 324, spacing_req 10750/27 ≈ 398.1, spacing_final 375 (a
multiple of 25, below the min). -/
theorem C8_shrinkage_witness :
    calculate_shrinkage_steel matA barNo13 180 = .ok shrW ∧
    shrW.spacing_final =
      ((⌊min (1000 * barNo13.area / shrW.As_req) (min (5 * (180:ℝ)) 450) / 25⌋ : ℤ) : ℝ) * 25 ∧
    (∃ k : ℤ, shrW.spacing_final = 25 * (k : ℝ)) ∧
    shrW.spacing_final ≤ min shrW.spacing_req (min (5 * (180:ℝ)) 450) := by
  have h := C8_shrinkage matA barNo13 180 shrW shr_matA_eval
  exact ⟨shr_matA_eval, h.2.2.1, h.2.2.2.1, h.2.2.2.2⟩

/-! ### C3: flexural reinforcement spacing -/

theorem max75_floor_mul (x : ℝ) :
    ∃ k : ℤ, max 75 (((⌊x / 25⌋ : ℤ) : ℝ) * 25) = 25 * (k : ℝ) := by
  refine ⟨max 3 ⌊x / 25⌋, ?_⟩
  push_cast
  rw [mul_max_of_nonneg _ _ (by norm_num : (0 : ℝ) ≤ 25)]
  rw [mul_comm (25 : ℝ) ((⌊x / 25⌋ : ℤ) : ℝ)]
  norm_num

theorem max75_floor_le (x : ℝ) :
    max 75 (((⌊x / 25⌋ : ℤ) : ℝ) * 25) ≤ max 75 x := by
  refine max_le_max le_rfl ?_
  calc ((⌊x / 25⌋ : ℤ) : ℝ) * 25 ≤ x / 25 * 25 :=
        mul_le_mul_of_nonneg_right (Int.floor_le _) (by norm_num)
    _ = x := div_mul_cancel₀ _ (by norm_num)

/-- C3 (amended): every flexural record's final spacing equals
`max(75, ⌊min(spacing_req, 3h, 450)/25⌋·25)`: a multiple of 25, ≥ 75, and
≤ `max(75, min(spacing_req, 3h, 450))` — the 75 mm floor can push it ABOVE
`min(spacing_req, 3h, 450)` when that bound is below 75
(see `C3_counterexample`). -/
theorem C3_flexural_spacing (material : MaterialProperties) (bar : BarProperties)
    (h d Mu : ℝ) (loc : String) (r : SteelResult)
    (hr : calculate_required_steel material bar h d Mu loc = .ok (some r)) :
    r.spacing_req = 1000 * bar.area / r.As_final ∧
    r.spacing_final =
      max 75 (((⌊min r.spacing_req (min (3 * h) 450) / 25⌋ : ℤ) : ℝ) * 25) ∧
    (∃ k : ℤ, r.spacing_final = 25 * (k : ℝ)) ∧
    75 ≤ r.spacing_final ∧
    r.spacing_final ≤ max 75 (min r.spacing_req (min (3 * h) 450)) := by
  simp only [calculate_required_steel] at hr
  by_cases hMu : Mu ≤ 0
  · rw [if_pos hMu] at hr
    exact absurd hr (by simp)
  · rw [if_neg hMu] at hr
    by_cases h1 : (0.9 : ℝ) * 1000 * d ^ 2 = 0
    · rw [pydiv_err h1] at hr
      simp only [err_bind] at hr
      exact absurd hr (by simp)
    · rw [pydiv_ok h1] at hr
      simp only [ok_bind] at hr
      by_cases h2 : (0.85 : ℝ) * material.fc_prime = 0
      · rw [pydiv_err h2] at hr
        simp only [err_bind] at hr
        exact absurd hr (by simp)
      · rw [pydiv_ok h2] at hr
        simp only [ok_bind] at hr
        by_cases h3 : material.fy = 0
        · rw [pydiv_err h3] at hr
          simp only [err_bind] at hr
          exact absurd hr (by simp)
        · rw [pydiv_ok h3] at hr
          simp only [ok_bind] at hr
          by_cases h4 : max ((if (1 : ℝ) - 2 * (material.fy / (0.85 * material.fc_prime)) *
                (Mu * 1000000 / (0.9 * 1000 * d ^ 2)) / material.fy < 0 then (0.02 : ℝ)
                else 1 / (material.fy / (0.85 * material.fc_prime)) *
                  (1 - Real.sqrt (1 - 2 * (material.fy / (0.85 * material.fc_prime)) *
                    (Mu * 1000000 / (0.9 * 1000 * d ^ 2)) / material.fy))) * 1000 * d)
              (if material.fy < 420 then 0.0020 * (1000 * h)
               else max (0.0018 * 420 / material.fy * (1000 * h)) (0.0014 * (1000 * h))) = 0
          · rw [pydiv_err h4] at hr
            simp only [err_bind] at hr
            exact absurd hr (by simp)
          · rw [pydiv_ok h4] at hr
            simp only [ok_bind, pure_ok, Except.ok.injEq, Option.some.injEq] at hr
            subst hr
            exact ⟨rfl, rfl, max75_floor_mul _, le_max_left _ _, max75_floor_le _⟩

def matF : MaterialProperties := { fc_prime := 40, fy := 340, concrete_density := 25, cover := 20 }

def steelW : SteelResult :=
  { location := "Midspan", Mu := 101.926125, Rn := 20, rho := 0.02,
    As_req := 1505, As_min := 200, As_final := 1505, As_prov := 2840 / 3,
    spacing_req := 14200 / 301, spacing_max := 14200 / 301, spacing_final := 75,
    bar_size := "#10", bar_area := 71 }

theorem steel_matF_eval :
    calculate_required_steel matF barNo10 100 75.25 101.926125 "Midspan" =
      .ok (some steelW) := by
  simp only [calculate_required_steel, matF, barNo10]
  norm_num [pydiv, ok_bind, pure_ok, max_def, min_def, steelW,
    Except.ok.injEq, Option.some.injEq, SteelResult.mk.injEq]

/-- C3 counterexample: with #10 bars, h = 100, d = 75.25, Mu ≈ 101.9 the
required spacing is 14200/301 ≈ 47.2 mm, below 75; the code's 75 mm floor
makes the final spacing 75 > min(spacing_req, 3h, 450), refuting the claimed
upper bound. -/
theorem C3_counterexample :
    calculate_required_steel matF barNo10 100 75.25 101.926125 "Midspan" =
      .ok (some steelW) ∧
    min steelW.spacing_req (min (3 * (100:ℝ)) 450) < steelW.spacing_final := by
  exact ⟨steel_matF_eval, by norm_num [steelW, min_def]⟩

/-- C3 witness: the amended bounds evaluated on the concrete record of
`C3_counterexample` (spacing 75 = max(75, ⌊(14200/301)/25⌋·25)). -/
theorem C3_flexural_spacing_witness :
    calculate_required_steel matF barNo10 100 75.25 101.926125 "Midspan" =
      .ok (some steelW) ∧
    steelW.spacing_final =
      max 75 (((⌊min steelW.spacing_req (min (3 * (100:ℝ)) 450) / 25⌋ : ℤ) : ℝ) * 25) ∧
    75 ≤ steelW.spacing_final ∧
    steelW.spacing_final ≤ max 75 (min steelW.spacing_req (min (3 * (100:ℝ)) 450)) := by
  have h := C3_flexural_spacing matF barNo10 100 75.25 101.926125 "Midspan" steelW
    steel_matF_eval
  exact ⟨steel_matF_eval, h.2.1, h.2.2.2.1, h.2.2.2.2⟩

/-! ### C10: shrinkage spacing floors to zero and design raises -/

def matT : MaterialProperties := { fc_prime := 0.01, fy := 400, concrete_density := 25, cover := 20 }

def inputT : SlabInput :=
  { clear_span := 10000, material := matT, loads := loadsA,
    support_condition := .simply_supported, main_bar := barNo13,
    shrinkage_bar := barNo10, user_h := some 1500 }

theorem thick_T :
    calculate_initial_thickness 10000 .simply_supported (some 1500) = (1500, []) := by
  have hc : ⌈(10000 : ℝ) / 20 / 10⌉ = (50 : ℤ) := ceil_eval (by norm_num) (by norm_num)
  simp only [calculate_initial_thickness, THICKNESS_COEFFICIENTS, hc]
  norm_num

theorem load_T : calculate_factored_load 1500 matT loadsA = (51.6, 39, 37.5) := by
  simp only [calculate_factored_load, matT, loadsA]
  norm_num

theorem mom_T : calculate_moments 51.6 10000 .simply_supported =
    [("Positive Moment (Midspan)", 645)] := by
  simp [calculate_moments, MOMENT_COEFFICIENT_VALUES]
  norm_num

theorem depth_T : calculate_effective_depth 1500 matT barNo13 = 1473.65 := by
  simp only [calculate_effective_depth, matT, barNo13]
  norm_num

theorem shr_T_err :
    calculate_shrinkage_steel matT barNo10 1500 = .error .zeroDivisionError := by
  simp only [calculate_shrinkage_steel, matT, barNo10]
  norm_num [pydiv, ok_bind, err_bind, pure_ok, max_def, min_def]

/-- C10: on a valid input (span 10000 > 0, f'c = 0.01 > 0, fy = 400 > 0,
catalog bars #13/#10, override thickness 1500 giving effective depth
1473.65 > 0) the shrinkage candidate spacing 71000/3000 ≈ 23.7 < 25 floors
to 0, and the subsequent provided-area division raises ZeroDivisionError:
`design` returns an error, not a result. -/
theorem C10_shrinkage_division_by_zero :
    design inputT [] = .error .zeroDivisionError ∧
    calculate_effective_depth 1500 matT barNo13 = 1473.65 ∧
    (0 : ℝ) < 1473.65 := by
  obtain ⟨rec, hrec, -, -⟩ := steel_ok matT barNo13 1500 1473.65 645
    "Positive Moment (Midspan)" (by norm_num) (by norm_num)
    (by norm_num [matT]) (by norm_num [matT]) (by norm_num)
  have hcol : collect_reinforcement matT barNo13 1500 1473.65
      [("Positive Moment (Midspan)", 645)] = .ok [("Positive Moment (Midspan)", rec)] := by
    simp only [collect_reinforcement, hrec, ok_bind, pure_ok]
  refine ⟨?_, depth_T, by norm_num⟩
  simp only [design, inputT]
  rw [thick_T]
  dsimp only
  rw [load_T]
  dsimp only
  rw [mom_T, depth_T, hcol]
  simp only [ok_bind]
  rw [shr_T_err]
  simp only [err_bind]

/-! ### C1: no effective-depth check -/

def matC1 : MaterialProperties := { fc_prime := 25, fy := 420, concrete_density := 25, cover := 40 }

def inputC1 : SlabInput :=
  { clear_span := 3500, material := matC1, loads := loadsA,
    support_condition := .simply_supported, main_bar := barNo25,
    shrinkage_bar := barNo13, user_h := some 50 }

theorem thick_C1 : calculate_initial_thickness 3500 .simply_supported (some 50) =
    (50, [{ user_thickness := 50, h_min := 180 }]) := by
  have hc : ⌈(3500 : ℝ) / 20 / 10⌉ = (18 : ℤ) := ceil_eval (by norm_num) (by norm_num)
  simp only [calculate_initial_thickness, THICKNESS_COEFFICIENTS, hc]
  norm_num

theorem load_C1 : calculate_factored_load 50 matC1 loadsA = (8.1, 2.75, 1.25) := by
  simp only [calculate_factored_load, matC1, loadsA]
  norm_num

theorem mom_C1 : calculate_moments 8.1 3500 .simply_supported =
    [("Positive Moment (Midspan)", 12.403125)] := by
  simp [calculate_moments, MOMENT_COEFFICIENT_VALUES]
  norm_num

theorem depth_C1 : calculate_effective_depth 50 matC1 barNo25 = -2.7 := by
  simp only [calculate_effective_depth, matC1, barNo25]
  norm_num

theorem design_C1 : ∃ r : DesignResult, design inputC1 [] = .ok r ∧
    r.effective_depth = -2.7 := by
  obtain ⟨rec, hrec, -, -⟩ := steel_ok matC1 barNo25 50 (-2.7) 12.403125
    "Positive Moment (Midspan)" (by norm_num) (by norm_num)
    (by norm_num [matC1]) (by norm_num [matC1]) (by norm_num)
  have hcol : collect_reinforcement matC1 barNo25 50 (-2.7)
      [("Positive Moment (Midspan)", 12.403125)] =
      .ok [("Positive Moment (Midspan)", rec)] := by
    simp only [collect_reinforcement, hrec, ok_bind, pure_ok]
  obtain ⟨shr, hshr⟩ := shrinkage_ok matC1 barNo13 50
    (by norm_num [matC1])
    (by norm_num [matC1, barNo13, min_def])
  obtain ⟨sh, hsh⟩ := check_shear_ok matC1 3500 8.1 (-2.7) .simply_supported
    (by norm_num [matC1])
  have hdesign : design inputC1 [] =
      .ok { thickness := 50, effective_depth := -2.7, factored_load := 8.1,
            self_weight := 1.25, total_dead := 2.75,
            moments := [("Positive Moment (Midspan)", 12.403125)],
            reinforcement := [("Positive Moment (Midspan)", rec)],
            shrinkage := shr, shear := sh,
            notes := [{ user_thickness := 50, h_min := 180 }] } := by
    simp only [design, inputC1]
    rw [thick_C1]
    dsimp only
    rw [load_C1]
    dsimp only
    rw [mom_C1, depth_C1, hcol]
    simp only [ok_bind]
    rw [hshr]
    simp only [ok_bind]
    rw [hsh]
    simp only [ok_bind, pure_ok, List.nil_append]
  exact ⟨_, hdesign, rfl⟩

/-- C1 counterexample: with thickness 50, cover 40 and a #25 main bar the
effective depth is 50 − 40 − 12.7 = −2.7 ≤ 0, yet `design` returns a
complete result carrying that negative depth — no GeometricInfeasibility
error is signalled and no computation is aborted. -/
theorem C1_counterexample :
    (design inputC1 []).toOption.map DesignResult.effective_depth = some (-2.7) ∧
    (-2.7 : ℝ) ≤ 0 := by
  obtain ⟨r, hr, hd⟩ := design_C1
  refine ⟨?_, by norm_num⟩
  rw [hr]
  simp [Except.toOption, hd]

/-- C1 (amended): the engine has no effective-depth check at all:
`calculate_effective_depth` unconditionally returns
`thickness − cover − diameter/2`, and `design` silently continues on a
configuration whose effective depth is negative, returning a full result. -/
theorem C1_no_geometric_check :
    (∀ (h : ℝ) (material : MaterialProperties) (bar : BarProperties),
      calculate_effective_depth h material bar = h - material.cover - bar.diameter / 2) ∧
    (design inputC1 []).toOption.isSome = true := by
  obtain ⟨r, hr, -⟩ := design_C1
  refine ⟨fun h material bar => rfl, ?_⟩
  rw [hr]
  rfl

/-! ### C2: no input re-validation in the engine -/

def matC2 : MaterialProperties := { fc_prime := 0.01, fy := 420, concrete_density := 25, cover := 20 }

def inputC2 : SlabInput :=
  { clear_span := -1000, material := matC2, loads := loadsA,
    support_condition := .simply_supported, main_bar := barNo13,
    shrinkage_bar := barNo13, user_h := none }

theorem thick_C2 :
    calculate_initial_thickness (-1000) .simply_supported none = (-50, []) := by
  have hc : ⌈(-1000 : ℝ) / 20 / 10⌉ = (-5 : ℤ) := ceil_eval (by norm_num) (by norm_num)
  simp only [calculate_initial_thickness, THICKNESS_COEFFICIENTS, hc]
  norm_num

theorem load_C2 : calculate_factored_load (-50) matC2 loadsA = (5.1, 0.25, -1.25) := by
  simp only [calculate_factored_load, matC2, loadsA]
  norm_num

theorem mom_C2 : calculate_moments 5.1 (-1000) .simply_supported =
    [("Positive Moment (Midspan)", 0.6375)] := by
  simp [calculate_moments, MOMENT_COEFFICIENT_VALUES]
  norm_num

theorem depth_C2 : calculate_effective_depth (-50) matC2 barNo13 = -76.35 := by
  simp only [calculate_effective_depth, matC2, barNo13]
  norm_num

theorem steel_C2_ok : ∃ r : SteelResult,
    calculate_required_steel matC2 barNo13 (-50) (-76.35) 0.6375
      "Positive Moment (Midspan)" = .ok (some r) := by
  simp only [calculate_required_steel, matC2, barNo13]
  norm_num [pydiv, ok_bind, pure_ok, max_def, min_def]

theorem design_C2 : ∃ r : DesignResult, design inputC2 [] = .ok r ∧
    r.thickness = -50 := by
  obtain ⟨rec, hrec⟩ := steel_C2_ok
  have hcol : collect_reinforcement matC2 barNo13 (-50) (-76.35)
      [("Positive Moment (Midspan)", 0.6375)] =
      .ok [("Positive Moment (Midspan)", rec)] := by
    simp only [collect_reinforcement, hrec, ok_bind, pure_ok]
  obtain ⟨shr, hshr⟩ := shrinkage_ok matC2 barNo13 (-50)
    (by norm_num [matC2])
    (by norm_num [matC2, barNo13, min_def])
  obtain ⟨sh, hsh⟩ := check_shear_ok matC2 (-1000) 5.1 (-76.35) .simply_supported
    (by norm_num [matC2])
  have hdesign : design inputC2 [] =
      .ok { thickness := -50, effective_depth := -76.35, factored_load := 5.1,
            self_weight := -1.25, total_dead := 0.25,
            moments := [("Positive Moment (Midspan)", 0.6375)],
            reinforcement := [("Positive Moment (Midspan)", rec)],
            shrinkage := shr, shear := sh, notes := [] } := by
    simp only [design, inputC2]
    rw [thick_C2]
    dsimp only
    rw [load_C2]
    dsimp only
    rw [mom_C2, depth_C2, hcol]
    simp only [ok_bind]
    rw [hshr]
    simp only [ok_bind]
    rw [hsh]
    simp only [ok_bind, pure_ok, List.nil_append]
  exact ⟨_, hdesign, rfl⟩

/-- C2 counterexample: with clear span −1000 ≤ 0 (and otherwise valid
inputs) `design` does not fail fast with any InvalidInput error — it runs
every stage and returns a complete result. -/
theorem C2_counterexample :
    inputC2.clear_span ≤ 0 ∧ (design inputC2 []).toOption.isSome = true := by
  obtain ⟨r, hr, -⟩ := design_C2
  refine ⟨by norm_num [inputC2], ?_⟩
  rw [hr]
  rfl

/-- C2 (amended): the engine validates only bar selection — constructing a
bar whose name is absent from the nine-entry catalog raises ValueError —
while `design` itself performs no re-validation of span/f'c/fy: with a
non-positive span it runs to completion (here returning thickness −50). -/
theorem C2_validation (s : String) (hs : BAR_DATA s = none) :
    BarProperties.make s = .error (.valueError s) ∧
    (design inputC2 []).toOption.map DesignResult.thickness = some (-50) := by
  obtain ⟨r, hr, ht⟩ := design_C2
  constructor
  · simp [BarProperties.make, hs]
  · rw [hr]
    simp [Except.toOption, ht]

/-- C2 witness: "#99" is not in the catalog and bar construction rejects it. -/
theorem C2_validation_witness :
    BAR_DATA "#99" = none ∧ BarProperties.make "#99" = .error (.valueError "#99") := by
  have h9 : BAR_DATA "#99" = none := by simp [BAR_DATA]
  exact ⟨h9, (C2_validation "#99" h9).1⟩

/-! ### C9: determinism and the notes accumulator -/

theorem map_bind {α β γ : Type} (f : α → β) (e : Except PyErr γ)
    (g : γ → Except PyErr α) :
    Except.map f (e >>= g) = e >>= fun x => Except.map f (g x) := by
  cases e <;> rfl

theorem map_pure {α β : Type} (f : α → β) (a : α) :
    Except.map f (pure a : Except PyErr α) = pure (f a) := rfl

/-- C9 (amended): `design` is a deterministic function of the input fields
and of the incoming notes state — `design inp notes0` equals the fresh run
`design inp []` with `notes0` prepended to the result's notes.  Hence two
calls on fresh contexts give identical results, but the notes list is
genuine hidden state on a shared context: a second `design()` call on the
same object re-appends any advisory note, so repeated calls are NOT
bit-identical whenever a note is generated (see `C9_counterexample`). -/
theorem C9_notes_state (inp : SlabInput) (notes0 : List Note) :
    design inp notes0 =
      Except.map (fun r => { r with notes := notes0 ++ r.notes }) (design inp []) := by
  simp only [design, map_bind, map_pure, List.nil_append]

def matC9 : MaterialProperties := { fc_prime := 4, fy := 420, concrete_density := 25, cover := 20 }

def inputC9 : SlabInput :=
  { clear_span := 3500, material := matC9, loads := loadsA,
    support_condition := .simply_supported, main_bar := barNo13,
    shrinkage_bar := barNo13, user_h := some 100 }

theorem thick_C9 : calculate_initial_thickness 3500 .simply_supported (some 100) =
    (100, [{ user_thickness := 100, h_min := 180 }]) := by
  have hc : ⌈(3500 : ℝ) / 20 / 10⌉ = (18 : ℤ) := ceil_eval (by norm_num) (by norm_num)
  simp only [calculate_initial_thickness, THICKNESS_COEFFICIENTS, hc]
  norm_num

theorem load_C9 : calculate_factored_load 100 matC9 loadsA = (9.6, 4, 2.5) := by
  simp only [calculate_factored_load, matC9, loadsA]
  norm_num

theorem mom_C9 : calculate_moments 9.6 3500 .simply_supported =
    [("Positive Moment (Midspan)", 14.7)] := by
  simp [calculate_moments, MOMENT_COEFFICIENT_VALUES]
  norm_num

theorem depth_C9 : calculate_effective_depth 100 matC9 barNo13 = 73.65 := by
  simp only [calculate_effective_depth, matC9, barNo13]
  norm_num

theorem design_C9_run (notes0 : List Note) : ∃ r : DesignResult,
    design inputC9 notes0 = .ok r ∧
    r.notes = notes0 ++ [{ user_thickness := 100, h_min := 180 }] := by
  obtain ⟨rec, hrec, -, -⟩ := steel_ok matC9 barNo13 100 73.65 14.7
    "Positive Moment (Midspan)" (by norm_num) (by norm_num)
    (by norm_num [matC9]) (by norm_num [matC9]) (by norm_num)
  have hcol : collect_reinforcement matC9 barNo13 100 73.65
      [("Positive Moment (Midspan)", 14.7)] =
      .ok [("Positive Moment (Midspan)", rec)] := by
    simp only [collect_reinforcement, hrec, ok_bind, pure_ok]
  obtain ⟨shr, hshr⟩ := shrinkage_ok matC9 barNo13 100
    (by norm_num [matC9])
    (by norm_num [matC9, barNo13, min_def])
  obtain ⟨sh, hsh⟩ := check_shear_ok matC9 3500 9.6 73.65 .simply_supported
    (by norm_num [matC9])
  have hdesign : design inputC9 notes0 =
      .ok { thickness := 100, effective_depth := 73.65, factored_load := 9.6,
            self_weight := 2.5, total_dead := 4,
            moments := [("Positive Moment (Midspan)", 14.7)],
            reinforcement := [("Positive Moment (Midspan)", rec)],
            shrinkage := shr, shear := sh,
            notes := notes0 ++ [{ user_thickness := 100, h_min := 180 }] } := by
    simp only [design, inputC9]
    rw [thick_C9]
    dsimp only
    rw [load_C9]
    dsimp only
    rw [mom_C9, depth_C9, hcol]
    simp only [ok_bind]
    rw [hshr]
    simp only [ok_bind]
    rw [hsh]
    simp only [ok_bind, pure_ok]
  exact ⟨_, hdesign, rfl⟩

/-- C9 counterexample: with an override below the minimum a fresh run
returns one advisory note; calling `design()` again on the same object
(notes state left by the first call) returns TWO copies of the note, so the
two calls' results are not bit-identical — the notes list is hidden state
carried between invocations. -/
theorem C9_counterexample :
    (design inputC9 []).toOption.map DesignResult.notes =
      some [{ user_thickness := 100, h_min := 180 }] ∧
    (design inputC9 [{ user_thickness := 100, h_min := 180 }]).toOption.map
        DesignResult.notes =
      some [{ user_thickness := 100, h_min := 180 },
            { user_thickness := 100, h_min := 180 }] ∧
    ([{ user_thickness := (100 : ℝ), h_min := (180 : ℝ) }] : List Note) ≠
      [{ user_thickness := 100, h_min := 180 }, { user_thickness := 100, h_min := 180 }] := by
  obtain ⟨r1, h1, hn1⟩ := design_C9_run []
  obtain ⟨r2, h2, hn2⟩ := design_C9_run [{ user_thickness := 100, h_min := 180 }]
  refine ⟨?_, ?_, ?_⟩
  · rw [h1]
    simp [Except.toOption, hn1]
  · rw [h2]
    simp [Except.toOption, hn2]
  · intro hcontra
    have := congrArg List.length hcontra
    simp at this

end SlabApp

end
